import Mathlib

/-!
Verification of the camayoc scan-status waiters.

This file embeds the two polling/timeout functions of the repository:

* `wait_until_state` from `camayoc/tests/qcs/api/v1/utils.py`, and
* `wait_for_scan` from `camayoc/tests/qcs/cli/test_scans.py`,

together with a model of Python `str.format` on `"{}"` placeholder
templates (needed because the source builds its exception messages with
`format`, and one of those calls is itself faulty).

The status source is modelled as a call-indexed function
`Nat → Except E _`: the `k`-th invocation of the status source during a
wait returns the `k`-th value (or raises a transport error `e : E`,
which the source code does not catch).  Every run records the number of
status-source invocations (`polls`) and `time.sleep(5)` calls
(`sleeps`).
-/

set_option maxRecDepth 8192

/-! ## Python `str.format` on `"{}"` templates -/

/-- Split a template at its first `"{}"` placeholder: returns the text
before the placeholder and the remainder after it, or `none` when the
template has no placeholder left. -/
def splitAtPlaceholder : List Char → Option (List Char × List Char)
  | [] => none
  | '{' :: '}' :: rest => some ([], rest)
  | c :: rest => (splitAtPlaceholder rest).map (fun pq => (c :: pq.1, pq.2))

/-- Python `template.format(*args)` restricted to auto-numbered `"{}"`
placeholders: replaces the placeholders left to right by the arguments;
returns `none` (an `IndexError: tuple index out of range`) when there
are more placeholders than arguments.  Extra arguments are ignored, as
in Python. -/
def pyFormatChars : List Char → List String → Option (List Char)
  | t, [] =>
    match splitAtPlaceholder t with
    | none => some t
    | some _ => none
  | t, a :: args =>
    match splitAtPlaceholder t with
    | none => some t
    | some (pre, post) =>
      (pyFormatChars post args).map (fun cs => pre ++ a.data ++ cs)

/-- `pyFormat template args` is `some message`, or `none` when the
`format` call raises `IndexError`. -/
def pyFormat (template : String) (args : List String) : Option String :=
  (pyFormatChars template.data args).map List.asString

/-- Number of `"{}"` placeholders in a template (fuel-bounded iteration
of `splitAtPlaceholder`; the fuel `template.length` always suffices). -/
def countPlaceholdersAux : Nat → List Char → Nat
  | 0, _ => 0
  | fuel + 1, t =>
    match splitAtPlaceholder t with
    | none => 0
    | some (_, post) => countPlaceholdersAux fuel post + 1

/-- Number of `"{}"` placeholders in a template. -/
def countPlaceholders (t : List Char) : Nat :=
  countPlaceholdersAux t.length t

/-- Decides whether `format` with `n` arguments raises `IndexError`
(more placeholders than arguments). -/
def fmtWouldFail : List Char → Nat → Bool
  | t, 0 =>
    match splitAtPlaceholder t with
    | none => false
    | some _ => true
  | t, n + 1 =>
    match splitAtPlaceholder t with
    | none => false
    | some (_, post) => fmtWouldFail post n

/-! ## Outcomes of a wait call -/

/-- The exceptions a waiter run can surface.  `waitTime` is
`WaitTimeError`, `failedScan` is `FailedScanException`, `indexError` is
an `IndexError` escaping a faulty `str.format` call, `nameError` is an
unbound-local error, and `source e` is a transport error `e` raised by
the status source itself. -/
inductive PyError (E : Type) where
  | waitTime (msg : String)
  | failedScan (msg : String)
  | indexError
  | nameError
  | source (e : E)
deriving DecidableEq

/-- A wait call either returns `None` or raises. -/
inductive PyOutcome (E : Type) where
  | returned
  | raised (err : PyError E)
deriving DecidableEq

/-- Result of running a waiter: the outcome together with the number of
status-source invocations and of `time.sleep(5)` calls performed. -/
structure WaitRun (E : Type) where
  outcome : PyOutcome E
  polls : Nat
  sleeps : Nat
deriving DecidableEq

/-- `raise Exc(template.format(*args))`: when the `format` call itself
raises `IndexError`, that error supersedes the exception being built. -/
def raiseFormatted {E : Type} (mk : String → PyError E)
    (template : String) (args : List String) : PyError E :=
  match pyFormat template args with
  | some m => mk m
  | none => PyError.indexError

/-! ## `wait_until_state` (camayoc/tests/qcs/api/v1/utils.py) -/

/-- The scan object passed to `wait_until_state`: its id, its
call-indexed `status()` method, and the pretty-printed dumps returned
by `pprint.pformat(scan.read().json())` and
`pprint.pformat(scan.results().json())`. -/
structure Scan (E : Type) where
  id : String
  status : Nat → Except E String
  readDump : String
  resultsDump : String

/-- Message template of the `WaitTimeError` raised by
`wait_until_state` (five placeholders, five arguments). -/
def wusWaitTimeTemplate : String :=
  "You have called wait_until_state() on a scan with ID={} and\nthe scan timed out while waiting to achieve the state=\"{}\"\nWhen the scan timed out, it had the state=\"{}\".\nThe full details of the scan were \n{}\nThe \"results\" available from the scan were \n{}\n"

/-- Message template of the `FailedScanException` raised by
`wait_until_state` (four placeholders, but the source supplies only two
arguments). -/
def wusFailedScanTemplate : String :=
  "You have called wait_until_state() on a scan with ID={} and\nthe scan failed instead of acheiving state={}.\nWhen it failed, the details about the scan were \n{}\nThe \"results\" available from the scan were \n{}\n"

/-- Outcome of one evaluation of the `while` condition
`(not scan.status() or not scan.status() == state) and timeout > 0` of
`wait_until_state`: a transport error to propagate, loop exit (the
function returns `None`), or entry into the loop body; `p` is the
updated number of status-source invocations. -/
inductive CondRes (E : Type) where
  | err (e : E) (p : Nat)
  | finish (p : Nat)
  | enter (p : Nat)

/-- One evaluation of the loop condition of `wait_until_state`, with
`polls` status-source invocations already performed.  Python evaluates
the disjunction first (one or two fresh `scan.status()` calls, a falsy
first status short-circuiting the `or`) and only then `timeout > 0`;
the empty string stands for a falsy status. -/
def wusCond {E : Type} (scan : Scan E) (state : String) (timeout : Int)
    (polls : Nat) : CondRes E :=
  match scan.status polls with
  | .error e => .err e (polls + 1)
  | .ok s1 =>
    if s1 = "" then
      if 0 < timeout then .enter (polls + 1) else .finish (polls + 1)
    else
      match scan.status (polls + 1) with
      | .error e => .err e (polls + 2)
      | .ok s2 =>
        if s2 = state then .finish (polls + 2)
        else if 0 < timeout then .enter (polls + 2)
        else .finish (polls + 2)

/-- The loop of `wait_until_state`.  Each iteration: evaluate the
condition (1–2 fresh polls); on entry `time.sleep(5)`, `timeout -= 5`;
if now `timeout <= 0`, raise `WaitTimeError` whose message polls the
status source afresh (plus the `read()`/`results()` dumps); otherwise,
when `state != 'failed'`, poll once more and, if that poll is
`'failed'`, raise `FailedScanException` (whose `format` call is
faulty). -/
def waitUntilStateLoop {E : Type} (scan : Scan E) (state : String)
    (timeout : Int) (polls sleeps : Nat) : WaitRun E :=
  match wusCond scan state timeout polls with
  | .err e p => ⟨.raised (.source e), p, sleeps⟩
  | .finish p => ⟨.returned, p, sleeps⟩
  | .enter p =>
    if _h2 : timeout - 5 ≤ 0 then
      match scan.status p with
      | .error e => ⟨.raised (.source e), p + 1, sleeps + 1⟩
      | .ok s3 =>
        ⟨.raised (raiseFormatted PyError.waitTime wusWaitTimeTemplate
            [scan.id, state, s3, scan.readDump, scan.resultsDump]),
          p + 1, sleeps + 1⟩
    else if state = "failed" then
      waitUntilStateLoop scan state (timeout - 5) p (sleeps + 1)
    else
      match scan.status p with
      | .error e => ⟨.raised (.source e), p + 1, sleeps + 1⟩
      | .ok s4 =>
        if s4 = "failed" then
          ⟨.raised (raiseFormatted PyError.failedScan wusFailedScanTemplate
              [scan.id, state]), p + 1, sleeps + 1⟩
        else
          waitUntilStateLoop scan state (timeout - 5) (p + 1) (sleeps + 1)
termination_by timeout.toNat
decreasing_by
  all_goals simp_wf
  all_goals omega

/-- `wait_until_state(scan, timeout, state)` from
`camayoc/tests/qcs/api/v1/utils.py` (defaults `timeout=120`,
`state='completed'`). -/
def wait_until_state {E : Type} (scan : Scan E) (timeout : Int := 120)
    (state : String := "completed") : WaitRun E :=
  waitUntilStateLoop scan state timeout 0 0

/-! ## `wait_for_scan` (camayoc/tests/qcs/cli/test_scans.py) -/

/-- The record returned by `scan_job({'id': scan_job_id})`: its
`['status']` field and its `pprint.pformat` dump. -/
structure ScanJobResult where
  status : String
  dump : String
deriving DecidableEq

/-- Message template of the `FailedScanException` raised by
`wait_for_scan` (two placeholders, two arguments). -/
def wfsFailedScanTemplate : String :=
  "The scan with ID \"{}\" has failed unexpectedly.\n\nThe information about the scan is:\n{}\n"

/-- Message template of the `WaitTimeError` raised by `wait_for_scan`
(three placeholders, three arguments). -/
def wfsWaitTimeTemplate : String :=
  "Timeout waiting for scan with ID \"{}\" to achieve the \"{}\" status.\n\nThe information about the scan is:\n{}\n"

/-- The `raise WaitTimeError(...)` after the loop of `wait_for_scan`:
its message interpolates the loop-local variable `result`, so when the
loop body never ran (`result` still unassigned) the statement fails
with a `NameError` instead. -/
def wfsTimeoutRaise {E : Type} (scanJobId status : String)
    (result : Option ScanJobResult) (polls sleeps : Nat) : WaitRun E :=
  match result with
  | some r =>
    ⟨.raised (raiseFormatted PyError.waitTime wfsWaitTimeTemplate
        [scanJobId, status, r.dump]), polls, sleeps⟩
  | none => ⟨.raised .nameError, polls, sleeps⟩

/-- The loop of `wait_for_scan`.  `result` holds the Python local
variable `result` (`none` while still unassigned).  Each iteration with
`timeout > 0`: poll; if `status != 'failed'` and the poll is `failed`,
raise `FailedScanException`; if the poll equals `status`, return;
otherwise `time.sleep(5)`, `timeout -= 5`.  After the loop, raise
`WaitTimeError` built from the last `result` — a `NameError` when the
loop body never ran. -/
def waitForScanLoop {E : Type} (scanJobId : String)
    (poll : Nat → Except E ScanJobResult) (status : String)
    (timeout : Int) (polls sleeps : Nat)
    (result : Option ScanJobResult) : WaitRun E :=
  if _h1 : 0 < timeout then
    match poll polls with
    | .error e => ⟨.raised (.source e), polls + 1, sleeps⟩
    | .ok r =>
      if status ≠ "failed" ∧ r.status = "failed" then
        ⟨.raised (raiseFormatted PyError.failedScan wfsFailedScanTemplate
            [scanJobId, r.dump]), polls + 1, sleeps⟩
      else if r.status = status then
        ⟨.returned, polls + 1, sleeps⟩
      else
        waitForScanLoop scanJobId poll status (timeout - 5)
          (polls + 1) (sleeps + 1) (some r)
  else
    wfsTimeoutRaise scanJobId status result polls sleeps
termination_by timeout.toNat
decreasing_by
  simp_wf
  omega

/-- `wait_for_scan(scan_job_id, status, timeout)` from
`camayoc/tests/qcs/cli/test_scans.py` (defaults `status='completed'`,
`timeout=900`). -/
def wait_for_scan {E : Type} (scanJobId : String)
    (poll : Nat → Except E ScanJobResult) (status : String := "completed")
    (timeout : Int := 900) : WaitRun E :=
  waitForScanLoop scanJobId poll status timeout 0 0 none

deriving instance DecidableEq for Except

/-! ## Concrete status sources used by the claims -/

/-- A source that always reports `running`. -/
def pollRunning : Nat → Except Unit ScanJobResult := fun _ =>
  .ok ⟨"running", "run-details"⟩

/-- A source that reports `completed` from the start. -/
def pollCompleted : Nat → Except Unit ScanJobResult := fun _ =>
  .ok ⟨"completed", "completed-details"⟩

/-- A source reporting `running` on the first poll and `failed`
afterwards. -/
def pollRunThenFailed : Nat → Except Unit ScanJobResult := fun k =>
  if k = 0 then .ok ⟨"running", "d0"⟩ else .ok ⟨"failed", "d1"⟩

/-- A source reporting `running` on the first poll and `completed`
afterwards. -/
def pollRunThenCompleted : Nat → Except Unit ScanJobResult := fun k =>
  if k = 0 then .ok ⟨"running", "d0"⟩ else .ok ⟨"completed", "d2"⟩

/-- A source whose every call raises a transport error. -/
def pollBroken : Nat → Except Unit ScanJobResult := fun _ => .error ()

/-- A scan whose status is always `running`. -/
def scanRunning : Scan Unit := ⟨"1", fun _ => .ok "running", "rd", "rs"⟩

/-- A scan reporting `running` during its first polling cycle and
`failed` from the second cycle on (call-indexed: the first cycle makes
three `status()` calls). -/
def scanFailsMid : Scan Unit :=
  ⟨"1", fun k => .ok (if k < 3 then "running" else "failed"), "rd", "rs"⟩

/-- A scan reporting `running` during the first condition check and
`failed` from then on. -/
def scanToFailed : Scan Unit :=
  ⟨"1", fun k => .ok (if k < 2 then "running" else "failed"), "rd", "rs"⟩

/-- A scan reporting `running` during its first polling cycle and
`completed` from the second cycle on. -/
def scanToCompleted : Scan Unit :=
  ⟨"1", fun k => .ok (if k < 3 then "running" else "completed"), "rd", "rs"⟩

/-- A scan reporting `running` on the two condition-check calls and
`surprise` on any later call (such as the fresh fetch made while
building the `WaitTimeError` message). -/
def scanSurprise : Scan Unit :=
  ⟨"1", fun k => .ok (if k < 2 then "running" else "surprise"), "rd", "rs"⟩

/-- A scan whose `status()` always raises a transport error. -/
def scanBroken : Scan Unit := ⟨"1", fun _ => .error (), "rd", "rs"⟩

/-- A scan reporting `running` for its first polling cycle (three
`status()` calls) and raising a transport error from the fourth call
on. -/
def scanErrLater : Scan Unit :=
  ⟨"1", fun k => if k < 3 then .ok "running" else .error (), "rd", "rs"⟩

/-- The `WaitTimeError` message `wait_until_state` builds when the
status source freshly reports `surprise` at message-construction
time. -/
def freshTimeoutMsg : String :=
  (pyFormat wusWaitTimeTemplate
    ["1", "completed", "surprise", "rd", "rs"]).getD ""

/-- The message that would result from the last status value polled by
the loop condition (`running`). -/
def staleTimeoutMsg : String :=
  (pyFormat wusWaitTimeTemplate
    ["1", "completed", "running", "rd", "rs"]).getD ""

/-! ## Lemmas about the `str.format` model -/

/-- `format` returns `IndexError` whenever `fmtWouldFail` says so. -/
theorem pyFormatChars_eq_none (args : List String) :
    ∀ t : List Char, fmtWouldFail t args.length = true →
      pyFormatChars t args = none := by
  induction args with
  | nil =>
    intro t h
    simp only [fmtWouldFail, List.length_nil] at h
    cases hs : splitAtPlaceholder t with
    | none => rw [hs] at h; simp at h
    | some pq => simp [pyFormatChars, hs]
  | cons a args ih =>
    intro t h
    simp only [fmtWouldFail, List.length_cons] at h
    cases hs : splitAtPlaceholder t with
    | none => rw [hs] at h; simp at h
    | some pq =>
      rw [hs] at h
      obtain ⟨pre, post⟩ := pq
      simp only [pyFormatChars, hs]
      rw [ih post h]
      rfl

/-- `format` succeeds whenever `fmtWouldFail` says it does. -/
theorem pyFormatChars_isSome (args : List String) :
    ∀ t : List Char, fmtWouldFail t args.length = false →
      (pyFormatChars t args).isSome := by
  induction args with
  | nil =>
    intro t h
    simp only [fmtWouldFail, List.length_nil] at h
    cases hs : splitAtPlaceholder t with
    | none => simp [pyFormatChars, hs]
    | some pq => rw [hs] at h; simp at h
  | cons a args ih =>
    intro t h
    simp only [fmtWouldFail, List.length_cons] at h
    cases hs : splitAtPlaceholder t with
    | none => simp [pyFormatChars, hs]
    | some pq =>
      rw [hs] at h
      obtain ⟨pre, post⟩ := pq
      simp only [pyFormatChars, hs]
      have hp := ih post h
      cases hq : pyFormatChars post args with
      | none => rw [hq] at hp; simp at hp
      | some cs => simp

/-- A `raise` over a template with more placeholders than arguments
raises `IndexError` instead of the intended exception. -/
theorem raiseFormatted_eq_indexError {E : Type} (mk : String → PyError E)
    (tpl : String) (args : List String)
    (h : fmtWouldFail tpl.data args.length = true) :
    raiseFormatted mk tpl args = PyError.indexError := by
  have hn := pyFormatChars_eq_none args tpl.data h
  unfold raiseFormatted pyFormat
  rw [hn]
  rfl

/-- A `raise` over a template with enough arguments raises the intended
exception with some formatted message. -/
theorem raiseFormatted_eq_mk {E : Type} (mk : String → PyError E)
    (tpl : String) (args : List String)
    (h : fmtWouldFail tpl.data args.length = false) :
    ∃ m, raiseFormatted mk tpl args = mk m := by
  have hs := pyFormatChars_isSome args tpl.data h
  unfold raiseFormatted pyFormat
  cases hp : pyFormatChars tpl.data args with
  | none => rw [hp] at hs; simp at hs
  | some cs => exact ⟨cs.asString, by simp [hp]⟩

/-! ## Step and unrolling lemmas for the two loops -/

theorem waitForScanLoop_step_ok {E : Type} {sid : String}
    {poll : Nat → Except E ScanJobResult} {target : String} {t : Int}
    {polls sleeps : Nat} {res : Option ScanJobResult} {r : ScanJobResult}
    (ht : 0 < t) (hp : poll polls = .ok r) :
    waitForScanLoop sid poll target t polls sleeps res =
      if target ≠ "failed" ∧ r.status = "failed" then
        ⟨.raised (raiseFormatted PyError.failedScan wfsFailedScanTemplate
            [sid, r.dump]), polls + 1, sleeps⟩
      else if r.status = target then ⟨.returned, polls + 1, sleeps⟩
      else waitForScanLoop sid poll target (t - 5) (polls + 1)
        (sleeps + 1) (some r) := by
  conv_lhs => rw [waitForScanLoop]
  rw [dif_pos ht]
  simp only [hp]

theorem waitForScanLoop_step_error {E : Type} {sid : String}
    {poll : Nat → Except E ScanJobResult} {target : String} {t : Int}
    {polls sleeps : Nat} {res : Option ScanJobResult} {e : E}
    (ht : 0 < t) (hp : poll polls = .error e) :
    waitForScanLoop sid poll target t polls sleeps res =
      ⟨.raised (.source e), polls + 1, sleeps⟩ := by
  rw [waitForScanLoop, dif_pos ht]
  simp only [hp]

theorem waitForScanLoop_stop {E : Type} {sid : String}
    {poll : Nat → Except E ScanJobResult} {target : String} {t : Int}
    {polls sleeps : Nat} {res : Option ScanJobResult}
    (ht : ¬ 0 < t) :
    waitForScanLoop sid poll target t polls sleeps res =
      wfsTimeoutRaise sid target res polls sleeps := by
  rw [waitForScanLoop, dif_neg ht]

/-- Skipping `n ≥ 1` non-terminal iterations of the `wait_for_scan`
loop: each costs one poll, one sleep and 5 units of the timeout
budget, and the `result` variable holds the record of the last poll. -/
theorem waitForScanLoop_skip {E : Type} (sid : String)
    (poll : Nat → Except E ScanJobResult) (r : Nat → ScanJobResult)
    (target : String) :
    ∀ (n : Nat), 1 ≤ n →
    ∀ (t : Int) (polls sleeps : Nat) (res : Option ScanJobResult),
    (∀ i, i < n → poll (polls + i) = .ok (r (polls + i))) →
    (∀ i, i < n → (r (polls + i)).status ≠ target ∧
        ¬(target ≠ "failed" ∧ (r (polls + i)).status = "failed")) →
    5 * (n : Int) - 5 < t →
    waitForScanLoop sid poll target t polls sleeps res =
      waitForScanLoop sid poll target (t - 5 * n) (polls + n) (sleeps + n)
        (some (r (polls + n - 1))) := by
  intro n hn
  induction n, hn using Nat.le_induction with
  | base =>
    intro t polls sleeps res hok hsafe hbud
    have ht : 0 < t := by omega
    have h0 := hok 0 (by omega)
    have hs0 := hsafe 0 (by omega)
    simp only [Nat.add_zero] at h0 hs0
    conv_lhs => rw [waitForScanLoop]
    rw [dif_pos ht]
    simp only [h0]
    rw [if_neg hs0.2, if_neg hs0.1]
    norm_num
  | succ n hn ih =>
    intro t polls sleeps res hok hsafe hbud
    have hn' : (1 : Int) ≤ (n : Int) := by exact_mod_cast hn
    have ht : 0 < t := by push_cast at hbud; omega
    have h0 := hok 0 (by omega)
    have hs0 := hsafe 0 (by omega)
    simp only [Nat.add_zero] at h0 hs0
    conv_lhs => rw [waitForScanLoop]
    rw [dif_pos ht]
    simp only [h0]
    rw [if_neg hs0.2, if_neg hs0.1]
    rw [ih (t - 5) (polls + 1) (sleeps + 1) (some (r polls))
      (fun i hi => by
        have h := hok (i + 1) (by omega)
        rwa [(by omega : polls + (i + 1) = polls + 1 + i)] at h)
      (fun i hi => by
        have h := hsafe (i + 1) (by omega)
        rwa [(by omega : polls + (i + 1) = polls + 1 + i)] at h)
      (by omega)]
    have e1 : t - 5 - 5 * (n : Int) = t - 5 * ((n : Nat) + 1 : Nat) := by
      push_cast; ring
    have e2 : polls + 1 + n = polls + (n + 1) := by omega
    have e3 : sleeps + 1 + n = sleeps + (n + 1) := by omega
    rw [e1, e2, e3]

theorem waitUntilStateLoop_err {E : Type} {scan : Scan E} {state : String}
    {t : Int} {polls sleeps : Nat} {e : E} {p : Nat}
    (hc : wusCond scan state t polls = .err e p) :
    waitUntilStateLoop scan state t polls sleeps =
      ⟨.raised (.source e), p, sleeps⟩ := by
  rw [waitUntilStateLoop]
  simp [hc]

theorem waitUntilStateLoop_finish {E : Type} {scan : Scan E} {state : String}
    {t : Int} {polls sleeps : Nat} {p : Nat}
    (hc : wusCond scan state t polls = .finish p) :
    waitUntilStateLoop scan state t polls sleeps =
      ⟨.returned, p, sleeps⟩ := by
  rw [waitUntilStateLoop]
  simp [hc]

theorem wusCond_of_error {E : Type} {scan : Scan E} {state : String}
    {t : Int} {polls : Nat} {e : E}
    (h : scan.status polls = .error e) :
    wusCond scan state t polls = .err e (polls + 1) := by
  unfold wusCond
  simp [h]

theorem wusCond_of_target {E : Type} {scan : Scan E} {state : String}
    {t : Int} {polls : Nat}
    (h0 : scan.status polls = .ok state)
    (h1 : scan.status (polls + 1) = .ok state) (hne : state ≠ "") :
    wusCond scan state t polls = .finish (polls + 2) := by
  unfold wusCond
  simp [h0, h1, hne]

theorem wusCond_of_error2 {E : Type} {scan : Scan E} {state : String}
    {t : Int} {polls : Nat} {s1 : String} {e : E}
    (h0 : scan.status polls = .ok s1) (hne : s1 ≠ "")
    (h1 : scan.status (polls + 1) = .error e) :
    wusCond scan state t polls = .err e (polls + 2) := by
  unfold wusCond
  simp [h0, hne, h1]

theorem wusCond_of_hit {E : Type} {scan : Scan E} {state : String}
    {t : Int} {polls : Nat} {s1 : String}
    (h0 : scan.status polls = .ok s1) (hne : s1 ≠ "")
    (h1 : scan.status (polls + 1) = .ok state) :
    wusCond scan state t polls = .finish (polls + 2) := by
  unfold wusCond
  simp [h0, hne, h1]

theorem wusCond_of_continue {E : Type} {scan : Scan E} {state : String}
    {t : Int} {polls : Nat} {s1 s2 : String}
    (h0 : scan.status polls = .ok s1) (hne : s1 ≠ "")
    (h1 : scan.status (polls + 1) = .ok s2) (hns : s2 ≠ state)
    (ht : 0 < t) :
    wusCond scan state t polls = .enter (polls + 2) := by
  unfold wusCond
  simp [h0, hne, h1, hns, ht]

/-- Once the loop body of `wait_until_state` is entered (for a target
other than `failed`), a transport error from the next `status()`
call — be it the failed-check poll or the fresh fetch made while
building the `WaitTimeError` message — propagates unmodified. -/
theorem waitUntilStateLoop_enter_source_error {E : Type} {scan : Scan E}
    {state : String} {t : Int} {polls sleeps p : Nat} {e : E}
    (hc : wusCond scan state t polls = .enter p)
    (hstate : state ≠ "failed")
    (hp : scan.status p = .error e) :
    waitUntilStateLoop scan state t polls sleeps =
      ⟨.raised (.source e), p + 1, sleeps + 1⟩ := by
  rw [waitUntilStateLoop]
  simp only [hc]
  by_cases h5 : t - 5 ≤ 0
  · rw [dif_pos h5]
    simp only [hp]
  · rw [dif_neg h5, if_neg hstate]
    simp only [hp]

/-- Skipping `n` non-terminal polling cycles of the `wait_until_state`
loop, for a target other than `failed`: each cycle makes three
status-source calls (two condition checks plus one failed-check), one
sleep, and costs 5 units of the timeout budget. -/
theorem waitUntilStateLoop_skip {E : Type} (scan : Scan E) (state : String)
    (s : Nat → String) (hstate : state ≠ "failed") :
    ∀ (n : Nat) (t : Int) (polls sleeps : Nat),
    (∀ k, k < 3 * n → scan.status (polls + k) = .ok (s (polls + k))) →
    (∀ j, j < n → s (polls + 3 * j) ≠ "" ∧ s (polls + 3 * j + 1) ≠ state ∧
        s (polls + 3 * j + 2) ≠ "failed") →
    5 * (n : Int) < t →
    waitUntilStateLoop scan state t polls sleeps =
      waitUntilStateLoop scan state (t - 5 * n) (polls + 3 * n)
        (sleeps + n) := by
  intro n
  induction n with
  | zero =>
    intro t polls sleeps hok hcyc hbud
    norm_num
  | succ n ih =>
    intro t polls sleeps hok hcyc hbud
    have ht : 0 < t := by push_cast at hbud; omega
    have h0 := hok 0 (by omega)
    have h1 := hok 1 (by omega)
    have h2 := hok 2 (by omega)
    have hc0 := hcyc 0 (by omega)
    simp only [Nat.add_zero, Nat.mul_zero] at h0 h1 h2 hc0
    have hcond := wusCond_of_continue h0 hc0.1 h1 hc0.2.1 ht
    conv_lhs => rw [waitUntilStateLoop]
    simp only [hcond]
    have h5 : ¬ (t - 5 ≤ 0) := by push_cast at hbud; omega
    rw [dif_neg h5, if_neg hstate]
    simp only [h2]
    rw [if_neg hc0.2.2]
    rw [(by omega : polls + 2 + 1 = polls + 3)]
    rw [ih (t - 5) (polls + 3) (sleeps + 1)
      (fun k hk => by
        have h := hok (k + 3) (by omega)
        rwa [(by omega : polls + (k + 3) = polls + 3 + k)] at h)
      (fun j hj => by
        have h := hcyc (j + 1) (by omega)
        rwa [(by omega : polls + 3 * (j + 1) = polls + 3 + 3 * j)] at h)
      (by push_cast at hbud ⊢; omega)]
    have e1 : t - 5 - 5 * (n : Int) = t - 5 * ((n : Nat) + 1 : Nat) := by
      push_cast; ring
    have e2 : polls + 3 + 3 * n = polls + 3 * (n + 1) := by omega
    have e3 : sleeps + 1 + n = sleeps + (n + 1) := by omega
    rw [e1, e2, e3]

/-- When the condition of the `wait_until_state` loop lets the body
run, the timeout budget was still positive. -/
theorem wusCond_enter_pos {E : Type} {scan : Scan E} {state : String}
    {timeout : Int} {polls p : Nat}
    (h : wusCond scan state timeout polls = .enter p) : 0 < timeout := by
  unfold wusCond at h
  cases hs : scan.status polls with
  | error e => simp [hs] at h
  | ok s1 =>
    simp only [hs] at h
    by_cases h1 : s1 = ""
    · rw [if_pos h1] at h
      by_cases ht : 0 < timeout
      · exact ht
      · rw [if_neg ht] at h; simp at h
    · rw [if_neg h1] at h
      cases hs2 : scan.status (polls + 1) with
      | error e => simp [hs2] at h
      | ok s2 =>
        simp only [hs2] at h
        by_cases h2 : s2 = state
        · rw [if_pos h2] at h; simp at h
        · rw [if_neg h2] at h
          by_cases ht : 0 < timeout
          · exact ht
          · rw [if_neg ht] at h; simp at h

/-- The `wait_for_scan` loop never sleeps more than `⌈timeout/5⌉` times
beyond the sleeps already accumulated. -/
theorem waitForScanLoop_sleeps_le {E : Type} (sid : String)
    (poll : Nat → Except E ScanJobResult) (target : String) :
    ∀ (N : Nat) (t : Int), t.toNat ≤ N →
    ∀ (polls sleeps : Nat) (res : Option ScanJobResult),
    (waitForScanLoop sid poll target t polls sleeps res).sleeps ≤
      sleeps + (t.toNat + 4) / 5 := by
  intro N
  induction N with
  | zero =>
    intro t ht polls sleeps res
    have h1 : ¬ 0 < t := by omega
    rw [waitForScanLoop, dif_neg h1]
    cases res <;> simp [wfsTimeoutRaise]
  | succ N ih =>
    intro t ht polls sleeps res
    by_cases h1 : 0 < t
    · cases hp : poll polls with
      | error e =>
        rw [waitForScanLoop, dif_pos h1]
        simp [hp]
      | ok r =>
        rw [waitForScanLoop, dif_pos h1]
        simp only [hp]
        by_cases hf : target ≠ "failed" ∧ r.status = "failed"
        · simp [if_pos hf]
        · rw [if_neg hf]
          by_cases hs : r.status = target
          · simp [if_pos hs]
          · rw [if_neg hs]
            have hle : (t - 5).toNat ≤ N := by omega
            have hrec := ih (t - 5) hle (polls + 1) (sleeps + 1) (some r)
            omega
    · rw [waitForScanLoop, dif_neg h1]
      cases res <;> simp [wfsTimeoutRaise]

/-- The `wait_until_state` loop never sleeps more than `⌈timeout/5⌉`
times beyond the sleeps already accumulated. -/
theorem waitUntilStateLoop_sleeps_le {E : Type} (scan : Scan E)
    (state : String) :
    ∀ (N : Nat) (t : Int), t.toNat ≤ N →
    ∀ (polls sleeps : Nat),
    (waitUntilStateLoop scan state t polls sleeps).sleeps ≤
      sleeps + (t.toNat + 4) / 5 := by
  intro N
  induction N with
  | zero =>
    intro t ht polls sleeps
    cases hc : wusCond scan state t polls with
    | err e p => rw [waitUntilStateLoop]; simp [hc]
    | finish p => rw [waitUntilStateLoop]; simp [hc]
    | enter p =>
      have hpos : 0 < t := wusCond_enter_pos hc
      omega
  | succ N ih =>
    intro t ht polls sleeps
    cases hc : wusCond scan state t polls with
    | err e p => rw [waitUntilStateLoop]; simp [hc]
    | finish p => rw [waitUntilStateLoop]; simp [hc]
    | enter p =>
      have hpos : 0 < t := wusCond_enter_pos hc
      rw [waitUntilStateLoop]
      simp only [hc]
      by_cases h2 : t - 5 ≤ 0
      · rw [dif_pos h2]
        cases hs : scan.status p with
        | error e => simp only [hs]; simp; omega
        | ok s3 => simp only [hs]; simp; omega
      · rw [dif_neg h2]
        have hle : (t - 5).toNat ≤ N := by omega
        by_cases hf : state = "failed"
        · rw [if_pos hf]
          have hrec := ih (t - 5) hle p (sleeps + 1)
          omega
        · rw [if_neg hf]
          cases hs : scan.status p with
          | error e => simp only [hs]; simp; omega
          | ok s4 =>
            simp only [hs]
            by_cases h4 : s4 = "failed"
            · rw [if_pos h4]; simp; omega
            · rw [if_neg h4]
              have hrec := ih (t - 5) hle (p + 1) (sleeps + 1)
              omega

/-! ## The claims -/

/-- Claim C1.  The claim says that for any timeout `t ≤ 0` both waiters
raise `WaitTimeError` without ever invoking the status source and never
return success.  The code does neither: at timeout 0,
`wait_until_state` evaluates its loop condition first (two status-source
invocations) and then returns `None` (success), while `wait_for_scan`
skips the loop and dies with the unbound-variable `NameError` of its
post-loop raise, never constructing a `WaitTimeError`. -/
theorem zero_timeout_observed_behavior :
    wait_for_scan "2" pollRunning "completed" 0 = ⟨.raised .nameError, 0, 0⟩ ∧
    wait_until_state scanRunning 0 "completed" = ⟨.returned, 2, 0⟩ := by
  constructor
  · rw [wait_for_scan, waitForScanLoop_stop (by omega)]
    rfl
  · rw [wait_until_state, waitUntilStateLoop]
    simp [wusCond, scanRunning]

/-- Claim C2.  When the status source reports `failed` before the
target (target ≠ `failed`) with timeout budget remaining:
`wait_for_scan` does raise `FailedScanException` (not `WaitTimeError`),
after `k` clean polls and on the `(k+1)`-th poll reporting `failed`;
but `wait_until_state` in the same scenario takes the failed-scan
branch and dies in the `IndexError` of its faulty `format` call instead
of raising `FailedScanException`. -/
theorem failed_before_target_behavior {E : Type} (sid : String)
    (poll : Nat → Except E ScanJobResult) (r : Nat → ScanJobResult)
    (target : String) (t : Int) (k : Nat)
    (htarget : target ≠ "failed")
    (hok : ∀ i, i ≤ k → poll i = .ok (r i))
    (hpre : ∀ i, i < k → (r i).status ≠ target ∧ (r i).status ≠ "failed")
    (hfail : (r k).status = "failed")
    (hbud : 5 * (k : Int) < t) :
    (∃ m, wait_for_scan sid poll target t =
        ⟨.raised (.failedScan m), k + 1, k⟩) ∧
    wait_until_state scanFailsMid 120 "completed" =
      ⟨.raised .indexError, 6, 2⟩ := by
  constructor
  · have hlen : fmtWouldFail wfsFailedScanTemplate.data 2 = false := by decide
    obtain ⟨m, hm⟩ := raiseFormatted_eq_mk (@PyError.failedScan E)
      wfsFailedScanTemplate [sid, (r k).dump] hlen
    refine ⟨m, ?_⟩
    have hmain : wait_for_scan sid poll target t =
        ⟨.raised (raiseFormatted PyError.failedScan wfsFailedScanTemplate
          [sid, (r k).dump]), k + 1, k⟩ := by
      rcases Nat.eq_zero_or_pos k with hk | hk
      · subst hk
        have ht : 0 < t := by push_cast at hbud; omega
        rw [wait_for_scan, waitForScanLoop_step_ok ht (hok 0 (by omega)),
          if_pos ⟨htarget, hfail⟩]
      · have hbud' : 5 * (k : Int) - 5 < t := by omega
        have hskip := waitForScanLoop_skip sid poll r target k hk t 0 0 none
          (fun i hi => by simpa using hok i (by omega))
          (fun i hi => by
            have h := hpre i (by omega)
            simp only [Nat.zero_add]
            exact ⟨h.1, fun hc => h.2 hc.2⟩)
          hbud'
        rw [wait_for_scan, hskip]
        simp only [Nat.zero_add]
        have ht' : 0 < t - 5 * (k : Int) := by omega
        rw [waitForScanLoop_step_ok ht' (hok k le_rfl),
          if_pos ⟨htarget, hfail⟩]
    rw [hmain, hm]
  · have hlen : fmtWouldFail wusFailedScanTemplate.data 2 = true := by decide
    rw [wait_until_state, waitUntilStateLoop]
    simp [wusCond, scanFailsMid]
    rw [waitUntilStateLoop]
    simp [wusCond, scanFailsMid]
    rw [raiseFormatted_eq_indexError _ _ _ hlen]

theorem failed_before_target_behavior_witness :
    "completed" ≠ "failed" ∧
    (∃ m, wait_for_scan "1" pollRunThenFailed "completed" 900 =
      ⟨.raised (.failedScan m), 2, 1⟩) := by
  refine ⟨by decide, ?_⟩
  exact (failed_before_target_behavior "1" pollRunThenFailed
    (fun k => if k = 0 then ⟨"running", "d0"⟩ else ⟨"failed", "d1"⟩)
    "completed" 900 1 (by decide)
    (by decide) (by decide) (by decide) (by norm_num)).1

/-- Claim C3, counterexample.  With the target already reported by the
first poll (n = 1), `wait_for_scan` returns after 1 poll and 0 sleeps —
not the 1 sleep the claim predicts (the loop checks the status before
sleeping). -/
theorem success_first_poll_sleeps_zero :
    wait_for_scan "1" pollCompleted "completed" 900 = ⟨.returned, 1, 0⟩ ∧
    (wait_for_scan "1" pollCompleted "completed" 900).sleeps ≠ 1 := by
  have h : wait_for_scan "1" pollCompleted "completed" 900 =
      ⟨.returned, 1, 0⟩ := by
    rw [wait_for_scan, waitForScanLoop]
    simp [pollCompleted]
  refine ⟨h, ?_⟩
  rw [h]
  simp

/-- Claim C3, amended.  When the n-th polling cycle is the first to
report the target (no target and no `failed` earlier, budget to
spare), the waiter returns successfully after n − 1 sleeps;
`wait_for_scan` makes exactly n status-source invocations (one per
cycle, checked before sleeping), while `wait_until_state` — polling up
to three times per cycle — returns at the condition check of its n-th
cycle after exactly 3(n − 1) + 2 invocations. -/
theorem success_polls_and_sleeps {E : Type} (sid : String)
    (poll : Nat → Except E ScanJobResult) (r : Nat → ScanJobResult)
    (target : String) (t : Int) (n : Nat)
    (scan : Scan E) (state : String) (s : Nat → String) (t2 : Int)
    (hn : 1 ≤ n)
    (hok : ∀ i, i < n → poll i = .ok (r i))
    (hpre : ∀ i, i < n - 1 → (r i).status ≠ target ∧ (r i).status ≠ "failed")
    (hhit : (r (n - 1)).status = target)
    (hbud : 5 * (n : Int) - 5 < t)
    (hstate : state ≠ "failed")
    (hsok : ∀ k, k < 3 * n → scan.status k = .ok (s k))
    (hscyc : ∀ j, j < n - 1 → s (3 * j) ≠ "" ∧ s (3 * j + 1) ≠ state ∧
        s (3 * j + 2) ≠ "failed")
    (hlast1 : s (3 * (n - 1)) ≠ "")
    (hlast2 : s (3 * (n - 1) + 1) = state)
    (hbud2 : 5 * ((n : Int) - 1) < t2) :
    wait_for_scan sid poll target t = ⟨.returned, n, n - 1⟩ ∧
    wait_until_state scan t2 state =
      ⟨.returned, 3 * (n - 1) + 2, n - 1⟩ := by
  constructor
  · obtain ⟨m, rfl⟩ : ∃ m, n = m + 1 := ⟨n - 1, by omega⟩
    simp only [Nat.add_sub_cancel] at hpre hhit ⊢
    have hnf : ¬(target ≠ "failed" ∧ (r m).status = "failed") := fun hc =>
      hc.1 (hhit.symm.trans hc.2)
    rcases Nat.eq_zero_or_pos m with hm | hm
    · subst hm
      have ht : 0 < t := by push_cast at hbud; omega
      rw [wait_for_scan, waitForScanLoop_step_ok ht (hok 0 (by omega)),
        if_neg hnf, if_pos hhit]
    · have hbud' : 5 * (m : Int) - 5 < t := by push_cast at hbud ⊢; omega
      have hskip := waitForScanLoop_skip sid poll r target m hm t 0 0 none
        (fun i hi => by simpa using hok i (by omega))
        (fun i hi => by
          have h := hpre i (by omega)
          simp only [Nat.zero_add]
          exact ⟨h.1, fun hc => h.2 hc.2⟩)
        hbud'
      rw [wait_for_scan, hskip]
      simp only [Nat.zero_add]
      have ht' : 0 < t - 5 * (m : Int) := by push_cast at hbud; omega
      rw [waitForScanLoop_step_ok ht' (hok m (by omega)), if_neg hnf,
        if_pos hhit]
  · obtain ⟨m, rfl⟩ : ∃ m, n = m + 1 := ⟨n - 1, by omega⟩
    simp only [Nat.add_sub_cancel] at hscyc hlast1 hlast2 hbud2 ⊢
    have hskip := waitUntilStateLoop_skip scan state s hstate m t2 0 0
      (fun p hp => by simpa using hsok p (by omega))
      (fun i hi => by simpa using hscyc i (by omega))
      (by push_cast at hbud2 ⊢; omega)
    rw [wait_until_state, hskip]
    simp only [Nat.zero_add]
    have ha := hsok (3 * m) (by omega)
    have hb := hsok (3 * m + 1) (by omega)
    rw [hlast2] at hb
    rw [waitUntilStateLoop_finish (wusCond_of_hit ha hlast1 hb)]

theorem success_polls_and_sleeps_witness :
    1 ≤ 2 ∧
    wait_for_scan "1" pollRunThenCompleted "completed" 900 =
      ⟨.returned, 2, 1⟩ ∧
    wait_until_state scanToCompleted 120 "completed" =
      ⟨.returned, 5, 1⟩ := by
  have h := success_polls_and_sleeps "1" pollRunThenCompleted
    (fun k => if k = 0 then ⟨"running", "d0"⟩ else ⟨"completed", "d2"⟩)
    "completed" 900 2
    scanToCompleted "completed"
    (fun k => if k < 3 then "running" else "completed") 120
    (by norm_num)
    (by decide) (by decide) (by decide) (by norm_num)
    (by decide) (by decide) (by decide) (by decide) (by decide)
    (by norm_num)
  exact ⟨by norm_num, h.1, by simpa using h.2⟩

/-- Claim C4, counterexample.  On timeout, `wait_until_state` calls
`scan.status()` afresh to build the `WaitTimeError` message (3 status
polls here, the last one inside the raise), and the status embedded in
the message (`surprise`) differs from the last status polled before the
timeout check (`running`), refuting the claim that the message reflects
the last successful poll. -/
theorem timeout_message_fresh_status :
    wait_until_state scanSurprise 5 "completed" =
      ⟨.raised (.waitTime freshTimeoutMsg), 3, 1⟩ ∧
    freshTimeoutMsg ≠ staleTimeoutMsg := by
  constructor
  · rw [wait_until_state, waitUntilStateLoop]
    simp only [wusCond, scanSurprise]
    norm_num
    decide
  · decide

/-- Claim C4, amended.  For `wait_for_scan` the claim holds: on a
timeout after k full polling cycles, the `WaitTimeError` message is
formatted from the record of the last (k-th) poll, with no fresh fetch
(the poll count stays k); `wait_until_state` instead re-polls while
building its message. -/
theorem wait_for_scan_timeout_uses_last_poll {E : Type} (sid : String)
    (poll : Nat → Except E ScanJobResult) (r : Nat → ScanJobResult)
    (target : String) (t : Int) (k : Nat)
    (hk : 1 ≤ k)
    (hok : ∀ i, i < k → poll i = .ok (r i))
    (hsafe : ∀ i, i < k → (r i).status ≠ target ∧
        ¬(target ≠ "failed" ∧ (r i).status = "failed"))
    (hlo : 5 * (k : Int) - 5 < t) (hhi : t ≤ 5 * k) :
    ∃ m, wait_for_scan sid poll target t =
        ⟨.raised (.waitTime m), k, k⟩ ∧
      pyFormat wfsWaitTimeTemplate [sid, target, (r (k - 1)).dump] =
        some m := by
  have hskip := waitForScanLoop_skip sid poll r target k hk t 0 0 none
    (fun i hi => by simpa using hok i hi)
    (fun i hi => by simpa using hsafe i hi)
    hlo
  have hstop : ¬ 0 < t - 5 * (k : Int) := by omega
  have hlen : fmtWouldFail wfsWaitTimeTemplate.data 3 = false := by decide
  have hsome := pyFormatChars_isSome [sid, target, (r (k - 1)).dump]
    wfsWaitTimeTemplate.data hlen
  cases hp : pyFormatChars wfsWaitTimeTemplate.data
      [sid, target, (r (k - 1)).dump] with
  | none => rw [hp] at hsome; simp at hsome
  | some cs =>
    refine ⟨cs.asString, ?_, by rw [pyFormat, hp]; rfl⟩
    rw [wait_for_scan, hskip]
    simp only [Nat.zero_add]
    rw [waitForScanLoop_stop hstop]
    simp only [wfsTimeoutRaise, raiseFormatted, pyFormat, hp]
    rfl

theorem wait_for_scan_timeout_uses_last_poll_witness :
    1 ≤ 1 ∧
    ∃ m, wait_for_scan "1" pollRunning "completed" 5 =
        ⟨.raised (.waitTime m), 1, 1⟩ := by
  refine ⟨le_refl 1, ?_⟩
  obtain ⟨m, hm, _⟩ := wait_for_scan_timeout_uses_last_poll "1" pollRunning
    (fun _ => ⟨"running", "run-details"⟩) "completed" 5 1
    (le_refl 1) (by decide) (by decide) (by norm_num) (by norm_num)
  exact ⟨m, hm⟩

/-- Claim C5.  The polling interval is the constant 5 (each cycle
sleeps 5 units and subtracts 5 from the budget, as in the loop
definitions), so the total number of sleeps of either waiter — in
particular before any `WaitTimeError` — is bounded by
`⌈timeout / 5⌉ = (timeout + 4) / 5`. -/
theorem sleep_count_bounded {E : Type} (sid : String)
    (poll : Nat → Except E ScanJobResult) (target : String)
    (scan : Scan E) (state : String) (t : Int) :
    (wait_for_scan sid poll target t).sleeps ≤ (t.toNat + 4) / 5 ∧
    (wait_until_state scan t state).sleeps ≤ (t.toNat + 4) / 5 := by
  constructor
  · have h := waitForScanLoop_sleeps_le sid poll target t.toNat t le_rfl 0 0 none
    simpa [wait_for_scan] using h
  · have h := waitUntilStateLoop_sleeps_le scan state t.toNat t le_rfl 0 0
    simpa [wait_until_state] using h

/-- Claim C6.  A transport error raised by the status source propagates
unmodified out of both waiters: the very same error value surfaces (not
wrapped in `WaitTimeError` or `FailedScanException`), and the erroring
poll is not retried (the poll count stops right after it).  For
`wait_for_scan` this is proved for an error at any poll `k`; for
`wait_until_state`, for an error at its very first invocation (any
state, any timeout), and — after any number `j` of clean non-terminal
cycles — at each of its call sites: the first condition call, the
second condition call, and the post-sleep call (which is the
failed-check poll when budget remains and the fresh fetch of the
`WaitTimeError` message construction when it does not). -/
theorem source_error_propagates {E : Type} (sid : String)
    (poll : Nat → Except E ScanJobResult) (r : Nat → ScanJobResult)
    (target : String) (t : Int) (k : Nat) (e : E)
    (scan2 : Scan E) (state2 : String) (t3 : Int) (e3 : E)
    (scan : Scan E) (state : String) (s : Nat → String) (t2 : Int)
    (e2 : E) (j : Nat)
    (hok : ∀ i, i < k → poll i = .ok (r i))
    (hsafe : ∀ i, i < k → (r i).status ≠ target ∧
        ¬(target ≠ "failed" ∧ (r i).status = "failed"))
    (herr : poll k = .error e)
    (hbud : 5 * (k : Int) < t)
    (h03 : scan2.status 0 = .error e3)
    (hstate : state ≠ "failed")
    (hclean : ∀ i, i < 3 * j → scan.status i = .ok (s i))
    (hcyc : ∀ i, i < j → s (3 * i) ≠ "" ∧ s (3 * i + 1) ≠ state ∧
        s (3 * i + 2) ≠ "failed")
    (hbud2 : 5 * (j : Int) < t2) :
    wait_for_scan sid poll target t = ⟨.raised (.source e), k + 1, k⟩ ∧
    wait_until_state scan2 t3 state2 = ⟨.raised (.source e3), 1, 0⟩ ∧
    (scan.status (3 * j) = .error e2 →
      wait_until_state scan t2 state =
        ⟨.raised (.source e2), 3 * j + 1, j⟩) ∧
    (s (3 * j) ≠ "" → scan.status (3 * j) = .ok (s (3 * j)) →
      scan.status (3 * j + 1) = .error e2 →
      wait_until_state scan t2 state =
        ⟨.raised (.source e2), 3 * j + 2, j⟩) ∧
    (s (3 * j) ≠ "" → s (3 * j + 1) ≠ state →
      scan.status (3 * j) = .ok (s (3 * j)) →
      scan.status (3 * j + 1) = .ok (s (3 * j + 1)) →
      scan.status (3 * j + 2) = .error e2 →
      wait_until_state scan t2 state =
        ⟨.raised (.source e2), 3 * j + 3, j + 1⟩) := by
  have hskip := waitUntilStateLoop_skip scan state s hstate j t2 0 0
    (fun p hp => by simpa using hclean p hp)
    (fun i hi => by simpa using hcyc i hi)
    hbud2
  simp only [Nat.zero_add] at hskip
  refine ⟨?_, ?_, ?_, ?_, ?_⟩
  · rcases Nat.eq_zero_or_pos k with hk | hk
    · subst hk
      have ht : 0 < t := by push_cast at hbud; omega
      rw [wait_for_scan, waitForScanLoop_step_error ht herr]
    · have hbud' : 5 * (k : Int) - 5 < t := by omega
      have hskip' := waitForScanLoop_skip sid poll r target k hk t 0 0 none
        (fun i hi => by simpa using hok i hi)
        (fun i hi => by simpa using hsafe i hi)
        hbud'
      rw [wait_for_scan, hskip']
      simp only [Nat.zero_add]
      have ht' : 0 < t - 5 * (k : Int) := by omega
      rw [waitForScanLoop_step_error ht' herr]
  · rw [wait_until_state, waitUntilStateLoop_err (wusCond_of_error h03)]
  · intro ha
    rw [wait_until_state, hskip,
      waitUntilStateLoop_err (wusCond_of_error ha)]
  · intro hne ha hb
    rw [wait_until_state, hskip,
      waitUntilStateLoop_err (wusCond_of_error2 ha hne hb)]
  · intro hne hns ha hb hc
    have ht2 : 0 < t2 - 5 * (j : Int) := by omega
    rw [wait_until_state, hskip,
      waitUntilStateLoop_enter_source_error
        (wusCond_of_continue ha hne hb hns ht2) hstate hc,
      (by omega : 3 * j + 2 + 1 = 3 * j + 3)]

theorem source_error_propagates_witness :
    pollBroken 0 = .error () ∧
    wait_for_scan "1" pollBroken "completed" 120 =
      ⟨.raised (.source ()), 1, 0⟩ ∧
    wait_until_state scanBroken 120 "completed" =
      ⟨.raised (.source ()), 1, 0⟩ ∧
    wait_until_state scanErrLater 120 "completed" =
      ⟨.raised (.source ()), 4, 1⟩ := by
  have h := source_error_propagates "1" pollBroken
    (fun _ => ⟨"", ""⟩) "completed" 120 0 ()
    scanBroken "completed" 120 ()
    scanErrLater "completed" (fun _ => "running") 120 () 1
    (by decide) (by decide) (by decide) (by norm_num)
    (by decide) (by decide) (by decide) (by decide) (by norm_num)
  exact ⟨rfl, h.1, h.2.1, by simpa using h.2.2.1 (by decide)⟩

/-- Claim C7.  A job whose source already reports the target on the
first polling cycle makes the waiter return successfully at once, with
zero sleeps: `wait_for_scan` after a single poll, `wait_until_state`
after its first condition check (two status calls); hence a repeated
call on an unchanged job returns immediately as well. -/
theorem already_at_target_returns_immediately {E : Type} (sid : String)
    (rec : ScanJobResult) (target : String) (t t2 : Int) (scan : Scan E)
    (ht : 0 < t) (hrec : rec.status = target)
    (hscan : ∀ k, scan.status k = .ok target) (hne : target ≠ "") :
    wait_for_scan (E := E) sid (fun _ => .ok rec) target t =
      ⟨.returned, 1, 0⟩ ∧
    wait_until_state scan t2 target = ⟨.returned, 2, 0⟩ := by
  constructor
  · have hnf : ¬(target ≠ "failed" ∧ rec.status = "failed") := by
      intro hc
      exact hc.1 (hrec.symm.trans hc.2)
    rw [wait_for_scan, waitForScanLoop_step_ok ht rfl, if_neg hnf,
      if_pos hrec]
  · rw [wait_until_state,
      waitUntilStateLoop_finish (wusCond_of_target (hscan 0) (hscan 1) hne)]

theorem already_at_target_returns_immediately_witness :
    (0 : Int) < 120 ∧ ScanJobResult.status ⟨"completed", "d"⟩ = "completed" ∧
      wait_for_scan (E := Unit) "1" (fun _ => .ok ⟨"completed", "d"⟩)
        "completed" 120 = ⟨.returned, 1, 0⟩ := by
  refine ⟨by norm_num, rfl, ?_⟩
  exact (already_at_target_returns_immediately "1" ⟨"completed", "d"⟩
    "completed" 120 120 ⟨"9", fun _ => .ok "completed", "rd", "rs"⟩
    (by norm_num) rfl (fun k => rfl) (by decide)).1

/-- Claim C8.  When the caller's target is `failed`, observing `failed`
is success for both waiters — the failure short-circuit is disabled, no
`FailedScanException` is raised, and the run returns `None`. -/
theorem target_failed_returns_success :
    wait_for_scan "1" pollRunThenFailed "failed" 900 = ⟨.returned, 2, 1⟩ ∧
    wait_until_state scanToFailed 120 "failed" = ⟨.returned, 4, 1⟩ := by
  constructor
  · rw [wait_for_scan, waitForScanLoop]
    simp [pollRunThenFailed]
    rw [waitForScanLoop]
    simp [pollRunThenFailed]
  · rw [wait_until_state, waitUntilStateLoop]
    simp [wusCond, scanToFailed]
    rw [waitUntilStateLoop]
    simp [wusCond, scanToFailed]

/-- Claim C9.  For any non-positive timeout, `wait_for_scan` never runs
the loop body (0 polls, 0 sleeps) and the post-loop raise trips over
the unassigned local `result`, so the call ends in an unbound-variable
`NameError` instead of constructing the `WaitTimeError` message. -/
theorem nonpositive_timeout_nameError {E : Type} (sid : String)
    (poll : Nat → Except E ScanJobResult) (status : String) (t : Int)
    (ht : t ≤ 0) :
    wait_for_scan sid poll status t = ⟨.raised .nameError, 0, 0⟩ := by
  rw [wait_for_scan, waitForScanLoop_stop (by omega)]
  rfl

theorem nonpositive_timeout_nameError_witness :
    (0 : Int) ≤ 0 ∧
      wait_for_scan "1" pollRunning "completed" 0 =
        ⟨.raised .nameError, 0, 0⟩ :=
  ⟨le_refl 0,
    nonpositive_timeout_nameError "1" pollRunning "completed" 0 (le_refl 0)⟩

/-- Claim C10.  The `FailedScanException` message template of
`wait_until_state` has four `{}` placeholders, but the source's
`.format(scan._id, state)` supplies only two arguments, so every
execution of that branch raises a string-formatting `IndexError`
instead of constructing `FailedScanException`. -/
theorem failedscan_format_index_error :
    countPlaceholders wusFailedScanTemplate.data = 4 ∧
    ∀ (E : Type) (scanId state : String),
      raiseFormatted (@PyError.failedScan E) wusFailedScanTemplate
          [scanId, state] = PyError.indexError := by
  constructor
  · decide
  · intro E a b
    have hlen : fmtWouldFail wusFailedScanTemplate.data 2 = true := by decide
    exact raiseFormatted_eq_indexError _ _ _ hlen
